import Mathlib

/-!
Shallow embedding of the `cpp_imu_reader` protocol engine and connection
manager (files `src/imu_parser.cpp`, `include/imu_parser.h`,
`src/imu_reader.cpp`), together with theorems settling the claims about it.

Machine integers are modelled as `Nat` with explicit `% 256` (for `U8`
arithmetic) and explicit two's-complement reinterpretation for the signed
16- and 24-bit payload values.  Floating-point scale factors are modelled as
exact rationals carrying the same decimal literals as the source.
-/

namespace IMU

/-! ## Protocol constants (`include/imu_parser.h`) -/

/-- `CMD_PACKET_BEGIN = 0x49`. -/
def CMD_PACKET_BEGIN : Nat := 0x49

/-- `CMD_PACKET_END = 0x4D`. -/
def CMD_PACKET_END : Nat := 0x4D

/-- `CMD_PACKET_MAX_DAT_SIZE_RX = 73`. -/
def CMD_PACKET_MAX_DAT_SIZE_RX : Nat := 73

/-- `CMD_PACKET_MAX_DAT_SIZE_TX = 31`. -/
def CMD_PACKET_MAX_DAT_SIZE_TX : Nat := 31

/-! ## Frame decoder state (`IMUParser` private members) -/

/-- The receive state machine's states (`enum RxState`). -/
inductive RxState where
  | waitBegin
  | address
  | length
  | data
  | checksum
  | theEnd
deriving DecidableEq, Repr

/-- The mutable receive-side state of `IMUParser`: state tag, the
78-byte buffer `rx_buffer_[5 + CMD_PACKET_MAX_DAT_SIZE_RX]` (modelled as a
list of fixed length 78; a `List.set` out of range is a no-op, and we prove
separately that every write index is in bounds), `rx_index_`, `rx_cmd_len_`,
`rx_checksum_` (a `U8`, kept `< 256` by storing every update mod 256), and
`target_device_addr_`. -/
structure ParserState where
  rxState : RxState
  rxBuffer : List Nat
  rxIndex : Nat
  rxCmdLen : Nat
  rxChecksum : Nat
  targetAddr : Nat
deriving DecidableEq, Repr

/-- The constructor `IMUParser::IMUParser()`: state `RX_STATE_WAIT_BEGIN`,
all counters zero, `target_device_addr_ = 255`, buffer zero-filled. -/
def initParser : ParserState :=
  ⟨RxState.waitBegin, List.replicate 78 0, 0, 0, 0, 255⟩

/-- A completed frame as handed to `unpackData(&rx_buffer_[3], data_len)`:
the stored device address `rx_buffer_[1]` and the `data_len` bytes starting
at `rx_buffer_[3]` (whose first byte is the command). -/
structure DecodedFrame where
  addr : Nat
  payload : List Nat
deriving DecidableEq, Repr

/-- The value of `rx_checksum_` in state `RX_STATE_CHECKSUM` after
`rx_checksum_ += byte` (at the top of `processByte`) followed by
`rx_checksum_ -= byte`, in `U8` arithmetic. -/
def ckAfterSub (s : ParserState) (b : Nat) : Nat :=
  ((s.rxChecksum + b) % 256 + 256 - b % 256) % 256

/-- `IMUParser::processByte`, one byte of the receive state machine.
Returns the new state and `some frame` exactly when the source returns
`true` (a complete, checksum-valid, address-accepted frame handed to
`unpackData`).  Every branch mirrors the corresponding `case` of the
source `switch`; `rx_checksum_ += byte` at the top of the function is the
`ck` binding. -/
def processByte (s : ParserState) (b : Nat) : ParserState × Option DecodedFrame :=
  let ck := (s.rxChecksum + b) % 256
  match s.rxState with
  | RxState.waitBegin =>
      if b = CMD_PACKET_BEGIN then
        ({ s with rxState := RxState.address,
                  rxBuffer := s.rxBuffer.set 0 CMD_PACKET_BEGIN,
                  rxIndex := 1 % 256,
                  rxChecksum := 0 }, none)
      else
        ({ s with rxChecksum := ck }, none)
  | RxState.address =>
      let s' := { s with rxBuffer := s.rxBuffer.set s.rxIndex b,
                         rxIndex := (s.rxIndex + 1) % 256,
                         rxChecksum := ck }
      if b = 255 then ({ s' with rxState := RxState.waitBegin }, none)
      else ({ s' with rxState := RxState.length }, none)
  | RxState.length =>
      let s' := { s with rxBuffer := s.rxBuffer.set s.rxIndex b,
                         rxIndex := (s.rxIndex + 1) % 256,
                         rxChecksum := ck }
      if CMD_PACKET_MAX_DAT_SIZE_RX < b ∨ b = 0 then
        ({ s' with rxState := RxState.waitBegin }, none)
      else
        ({ s' with rxState := RxState.data, rxCmdLen := b }, none)
  | RxState.data =>
      let s' := { s with rxBuffer := s.rxBuffer.set s.rxIndex b,
                         rxIndex := (s.rxIndex + 1) % 256,
                         rxChecksum := ck }
      if s.rxCmdLen + 3 ≤ s'.rxIndex then
        ({ s' with rxState := RxState.checksum }, none)
      else
        (s', none)
  | RxState.checksum =>
      if ckAfterSub s b = b then
        ({ s with rxState := RxState.theEnd,
                  rxBuffer := s.rxBuffer.set s.rxIndex b,
                  rxIndex := (s.rxIndex + 1) % 256,
                  rxChecksum := ckAfterSub s b }, none)
      else
        ({ s with rxState := RxState.waitBegin, rxChecksum := ckAfterSub s b }, none)
  | RxState.theEnd =>
      if b = CMD_PACKET_END then
        let s' := { s with rxState := RxState.waitBegin,
                           rxBuffer := s.rxBuffer.set s.rxIndex b,
                           rxIndex := (s.rxIndex + 1) % 256,
                           rxChecksum := ck }
        let addr := s.rxBuffer.getD 1 0
        let dataLen := s'.rxIndex - 5
        if s.targetAddr = 255 ∨ s.targetAddr = addr then
          (s', some ⟨addr, (List.range dataLen).map (fun i => s'.rxBuffer.getD (3 + i) 0)⟩)
        else
          (s', none)
      else
        ({ s with rxState := RxState.waitBegin, rxChecksum := ck }, none)

/-- `IMUParser::reset()`: state back to `RX_STATE_WAIT_BEGIN`, counters
zeroed, buffer `memset` to zero; `target_device_addr_` untouched. -/
def reset (s : ParserState) : ParserState :=
  { s with rxState := RxState.waitBegin,
           rxBuffer := List.replicate 78 0,
           rxIndex := 0,
           rxCmdLen := 0,
           rxChecksum := 0 }

/-- Feed a byte sequence one byte at a time; collect all decoded frames in
order. -/
def runBytes (s : ParserState) (bs : List Nat) : ParserState × List DecodedFrame :=
  match bs with
  | [] => (s, [])
  | b :: rest =>
      let r := processByte s b
      let r' := runBytes r.1 rest
      (r'.1, r.2.toList ++ r'.2)

/-! ## Packet builder (`IMUParser::packAndSend`) -/

/-- The transmit buffer `IMUParser::packAndSend` hands to `sendFunc`:
46 zero bytes of preamble, the synchronization pattern `00 FF 00 FF`,
then `CMD_PACKET_BEGIN | deviceAddr | dLen | body | checksum | CMD_PACKET_END`,
with the additive `U8` checksum over `buf[51] .. buf[52 + dLen]`
(device address, length byte and body). -/
def txPacket (pDat : List Nat) (deviceAddr : Nat) : List Nat :=
  List.replicate 46 0 ++ [0x00, 0xFF, 0x00, 0xFF] ++
    [CMD_PACKET_BEGIN, deviceAddr, pDat.length] ++ pDat ++
    [(deviceAddr + pDat.length + pDat.sum) % 256, CMD_PACKET_END]

/-- `IMUParser::packAndSend` (the `pDat == nullptr` guard has no list
counterpart).  `none` models the `-1` early return on an invalid body
length, with `sendFunc` never invoked; `some pkt` models the single call
`sendFunc(buf, 55 + dLen)` with exactly the bytes `pkt`. -/
def packAndSend (pDat : List Nat) (deviceAddr : Nat) : Option (List Nat) :=
  if pDat.length = 0 ∨ CMD_PACKET_MAX_DAT_SIZE_TX < pDat.length then none
  else some (txPacket pDat deviceAddr)

/-! ## Payload decoder (`IMUParser::parseSensorData`)

Scale factors carry the exact decimal literals of `imu_parser.h`, as
rationals. -/

/-- `SCALE_ACCEL` (m/s² per LSB). -/
def SCALE_ACCEL : ℚ := 0.00478515625

/-- `SCALE_QUAT`. -/
def SCALE_QUAT : ℚ := 0.000030517578125

/-- `SCALE_ANGLE` (degrees per LSB). -/
def SCALE_ANGLE : ℚ := 0.0054931640625

/-- `SCALE_ANGLE_SPEED` (deg/s per LSB). -/
def SCALE_ANGLE_SPEED : ℚ := 0.06103515625

/-- `SCALE_MAG` (µT per LSB). -/
def SCALE_MAG : ℚ := 0.15106201171875

/-- `SCALE_TEMPERATURE` (°C per LSB). -/
def SCALE_TEMPERATURE : ℚ := 0.01

/-- `SCALE_AIR_PRESSURE` (hPa per LSB). -/
def SCALE_AIR_PRESSURE : ℚ := 0.0002384185791

/-- `SCALE_HEIGHT` (m per LSB). -/
def SCALE_HEIGHT : ℚ := 0.0010728836

/-- `struct IMUData`: every physical-unit field defaults to zero exactly
as the in-class initializers `= 0.0f` do. -/
structure IMUData where
  accel_x : ℚ := 0
  accel_y : ℚ := 0
  accel_z : ℚ := 0
  accel_with_gravity_x : ℚ := 0
  accel_with_gravity_y : ℚ := 0
  accel_with_gravity_z : ℚ := 0
  gyro_x : ℚ := 0
  gyro_y : ℚ := 0
  gyro_z : ℚ := 0
  mag_x : ℚ := 0
  mag_y : ℚ := 0
  mag_z : ℚ := 0
  temperature : ℚ := 0
  pressure : ℚ := 0
  height : ℚ := 0
  quat_w : ℚ := 0
  quat_x : ℚ := 0
  quat_y : ℚ := 0
  quat_z : ℚ := 0
  euler_x : ℚ := 0
  euler_y : ℚ := 0
  euler_z : ℚ := 0
  timestamp : Nat := 0
  subscribe_tag : Nat := 0

instance : Inhabited IMUData := ⟨{}⟩

/-- Two's-complement reinterpretation of a 16-bit pattern, i.e. the C cast
`(S16)v` for `0 ≤ v < 2^16`. -/
def toS16 (v : Nat) : Int :=
  if 32768 ≤ v then (v : Int) - 65536 else (v : Int)

/-- `(S16)(((S16)buf[L+1] << 8) | buf[L])`: little-endian signed 16-bit
read at offset `L`. -/
def rd16 (buf : List Nat) (L : Nat) : Int :=
  toS16 ((buf.getD (L + 1) 0) <<< 8 ||| buf.getD L 0)

/-- The 24-bit little-endian read with sign extension from bit 23 and the
final `(S32)` cast:
`tmpU32 = buf[L+2]<<16 | buf[L+1]<<8 | buf[L]; if bit23 then tmpU32 |= 0xff000000; (S32)tmpU32`. -/
def rd24 (buf : List Nat) (L : Nat) : Int :=
  let t := (buf.getD (L + 2) 0) <<< 16 ||| (buf.getD (L + 1) 0) <<< 8 ||| buf.getD L 0
  if t &&& 0x800000 = 0x800000 then ((t ||| 0xff000000 : Nat) : Int) - 4294967296
  else (t : Int)

/-- `data.subscribe_tag = ((U16)buf[2] << 8) | buf[1]`. -/
def tagOf (buf : List Nat) : Nat :=
  (buf.getD 2 0) <<< 8 ||| buf.getD 1 0

/-- `data.timestamp = buf[6]<<24 | buf[5]<<16 | buf[4]<<8 | buf[3]`. -/
def tsOf (buf : List Nat) : Nat :=
  (buf.getD 6 0) <<< 24 ||| (buf.getD 5 0) <<< 16 ||| (buf.getD 4 0) <<< 8 ||| buf.getD 3 0

/-!
The running cursor `L` of `parseSensorData`.  `L` starts at 7 and each
`if ((tag & bit) != 0 && L + w <= dLen)` block advances it by `w` exactly
when its condition holds, so the cursor value before each group is a
function of the tag and the body length.  `curAcc` is `L` after the
acceleration-without-gravity block, `curGrav` after the with-gravity
block, and so on.
-/

/-- Cursor after the `0x0001` (acceleration without gravity) block. -/
def curAcc (tag n : Nat) : Nat :=
  if tag &&& 0x0001 ≠ 0 ∧ 7 + 6 ≤ n then 7 + 6 else 7

/-- Cursor after the `0x0002` (acceleration with gravity) block. -/
def curGrav (tag n : Nat) : Nat :=
  if tag &&& 0x0002 ≠ 0 ∧ curAcc tag n + 6 ≤ n then curAcc tag n + 6 else curAcc tag n

/-- Cursor after the `0x0004` (angular rate) block. -/
def curGyro (tag n : Nat) : Nat :=
  if tag &&& 0x0004 ≠ 0 ∧ curGrav tag n + 6 ≤ n then curGrav tag n + 6 else curGrav tag n

/-- Cursor after the `0x0008` (magnetic field) block. -/
def curMag (tag n : Nat) : Nat :=
  if tag &&& 0x0008 ≠ 0 ∧ curGyro tag n + 6 ≤ n then curGyro tag n + 6 else curGyro tag n

/-- Cursor after the `0x0010` (temperature/pressure/height) block. -/
def curTph (tag n : Nat) : Nat :=
  if tag &&& 0x0010 ≠ 0 ∧ curMag tag n + 8 ≤ n then curMag tag n + 8 else curMag tag n

/-- Cursor after the `0x0020` (quaternion) block. -/
def curQuat (tag n : Nat) : Nat :=
  if tag &&& 0x0020 ≠ 0 ∧ curTph tag n + 8 ≤ n then curTph tag n + 8 else curTph tag n

/-- The sample built by `parseSensorData` for a body of length `≥ 7`.
Each field is assigned exactly when its group's guard
`(tag & bit) != 0 && L + width <= dLen` holds, from the little-endian
reads at the running cursor; otherwise it keeps its zero default. -/
def sensorSample (buf : List Nat) : IMUData :=
  let n := buf.length
  let tag := tagOf buf
  { subscribe_tag := tag
    timestamp := tsOf buf
    accel_x := if tag &&& 0x0001 ≠ 0 ∧ 7 + 6 ≤ n then (rd16 buf 7 : ℚ) * SCALE_ACCEL else 0
    accel_y := if tag &&& 0x0001 ≠ 0 ∧ 7 + 6 ≤ n then (rd16 buf 9 : ℚ) * SCALE_ACCEL else 0
    accel_z := if tag &&& 0x0001 ≠ 0 ∧ 7 + 6 ≤ n then (rd16 buf 11 : ℚ) * SCALE_ACCEL else 0
    accel_with_gravity_x := if tag &&& 0x0002 ≠ 0 ∧ curAcc tag n + 6 ≤ n then
      (rd16 buf (curAcc tag n) : ℚ) * SCALE_ACCEL else 0
    accel_with_gravity_y := if tag &&& 0x0002 ≠ 0 ∧ curAcc tag n + 6 ≤ n then
      (rd16 buf (curAcc tag n + 2) : ℚ) * SCALE_ACCEL else 0
    accel_with_gravity_z := if tag &&& 0x0002 ≠ 0 ∧ curAcc tag n + 6 ≤ n then
      (rd16 buf (curAcc tag n + 4) : ℚ) * SCALE_ACCEL else 0
    gyro_x := if tag &&& 0x0004 ≠ 0 ∧ curGrav tag n + 6 ≤ n then
      (rd16 buf (curGrav tag n) : ℚ) * SCALE_ANGLE_SPEED else 0
    gyro_y := if tag &&& 0x0004 ≠ 0 ∧ curGrav tag n + 6 ≤ n then
      (rd16 buf (curGrav tag n + 2) : ℚ) * SCALE_ANGLE_SPEED else 0
    gyro_z := if tag &&& 0x0004 ≠ 0 ∧ curGrav tag n + 6 ≤ n then
      (rd16 buf (curGrav tag n + 4) : ℚ) * SCALE_ANGLE_SPEED else 0
    mag_x := if tag &&& 0x0008 ≠ 0 ∧ curGyro tag n + 6 ≤ n then
      (rd16 buf (curGyro tag n) : ℚ) * SCALE_MAG else 0
    mag_y := if tag &&& 0x0008 ≠ 0 ∧ curGyro tag n + 6 ≤ n then
      (rd16 buf (curGyro tag n + 2) : ℚ) * SCALE_MAG else 0
    mag_z := if tag &&& 0x0008 ≠ 0 ∧ curGyro tag n + 6 ≤ n then
      (rd16 buf (curGyro tag n + 4) : ℚ) * SCALE_MAG else 0
    temperature := if tag &&& 0x0010 ≠ 0 ∧ curMag tag n + 8 ≤ n then
      (rd16 buf (curMag tag n) : ℚ) * SCALE_TEMPERATURE else 0
    pressure := if tag &&& 0x0010 ≠ 0 ∧ curMag tag n + 8 ≤ n then
      (rd24 buf (curMag tag n + 2) : ℚ) * SCALE_AIR_PRESSURE else 0
    height := if tag &&& 0x0010 ≠ 0 ∧ curMag tag n + 8 ≤ n then
      (rd24 buf (curMag tag n + 5) : ℚ) * SCALE_HEIGHT else 0
    quat_w := if tag &&& 0x0020 ≠ 0 ∧ curTph tag n + 8 ≤ n then
      (rd16 buf (curTph tag n) : ℚ) * SCALE_QUAT else 0
    quat_x := if tag &&& 0x0020 ≠ 0 ∧ curTph tag n + 8 ≤ n then
      (rd16 buf (curTph tag n + 2) : ℚ) * SCALE_QUAT else 0
    quat_y := if tag &&& 0x0020 ≠ 0 ∧ curTph tag n + 8 ≤ n then
      (rd16 buf (curTph tag n + 4) : ℚ) * SCALE_QUAT else 0
    quat_z := if tag &&& 0x0020 ≠ 0 ∧ curTph tag n + 8 ≤ n then
      (rd16 buf (curTph tag n + 6) : ℚ) * SCALE_QUAT else 0
    euler_x := if tag &&& 0x0040 ≠ 0 ∧ curQuat tag n + 6 ≤ n then
      (rd16 buf (curQuat tag n) : ℚ) * SCALE_ANGLE else 0
    euler_y := if tag &&& 0x0040 ≠ 0 ∧ curQuat tag n + 6 ≤ n then
      (rd16 buf (curQuat tag n + 2) : ℚ) * SCALE_ANGLE else 0
    euler_z := if tag &&& 0x0040 ≠ 0 ∧ curQuat tag n + 6 ≤ n then
      (rd16 buf (curQuat tag n + 4) : ℚ) * SCALE_ANGLE else 0 }

/-- `IMUParser::parseSensorData(buf, dLen)`: a body shorter than the
7-byte fixed prefix is rejected (`return` before `IMUData data;` is
constructed, no callback); otherwise the sample is built and handed to
`data_callback_` unconditionally. -/
def parseSensorData (buf : List Nat) : Option IMUData :=
  if buf.length < 7 then none else some (sensorSample buf)

/-- `IMUParser::unpackData`: only command `0x11` produces a sample. -/
def unpackData (buf : List Nat) : Option IMUData :=
  if buf.length = 0 then none
  else if buf.getD 0 0 = 0x11 then parseSensorData buf
  else none

/-! ## Connection manager (`IMUReader`, `src/imu_reader.cpp`)

The transport-facing state observable under `serial_mutex_`:
whether `serial_` is non-null (`serialPresent`), whether the held object
reports `isOpen()` (`serialOpen`, `false` when no object is held), and the
`connected_` flag.  Each mutex-guarded critical section of the source is
one atomic transition; platform outcomes (device node present, open or
read or `available()` succeeding) are the transitions' Boolean inputs. -/

structure ReaderState where
  serialPresent : Bool
  serialOpen : Bool
  connected : Bool
deriving DecidableEq, Repr

/-- The constructor: `connected_(false)` and no `serial_` object. -/
def initReader : ReaderState := ⟨false, false, false⟩

/-- `IMUReader::openSerial()`.  If `stat` on the port path fails the
function returns early with `connected_ = false` and `serial_` untouched;
otherwise any stale handle is closed and released, and the open either
succeeds (handle held, open, `connected_ = true`) or fails (handle
released, `connected_ = false`). -/
def openSerial (s : ReaderState) (deviceExists openOk : Bool) : ReaderState :=
  if deviceExists = false then { s with connected := false }
  else if openOk then ⟨true, true, true⟩
  else ⟨false, false, false⟩

/-- `IMUReader::closeSerial()`: close if open, release the handle, clear
`connected_`. -/
def closeSerial (_ : ReaderState) : ReaderState := ⟨false, false, false⟩

/-- One critical section of `IMUReader::readThread()`'s loop: skip when
not connected, handle absent, or not open; otherwise a read that throws
closes the port (without releasing the handle) and clears `connected_`. -/
def readIter (s : ReaderState) (readThrows : Bool) : ReaderState :=
  if s.connected && s.serialPresent && s.serialOpen then
    if readThrows then { s with serialOpen := false, connected := false }
    else s
  else s

/-- One critical section of `IMUReader::hotplugThread()`'s loop:
on a connection that tests healthy (`connected_ && serial_ && isOpen()`),
a vanished device node or a throwing `available()` probe closes the port
(handle not released) and clears `connected_`; otherwise no state change
inside the lock. -/
def hotplugIter (s : ReaderState) (deviceExists availThrows : Bool) : ReaderState :=
  if s.connected && s.serialPresent && s.serialOpen then
    if deviceExists = false then { s with connected := false, serialOpen := false }
    else if availThrows then { s with connected := false, serialOpen := false }
    else s
  else s

/-- `IMUReader::sendCommand(cmd, len)` under `serial_mutex_`: the early
`if (!connected_ || !serial_) return false;` guard, then
`IMUParser::packAndSend` with a transmit lambda writing to `serial_`.
The result is the returned flag, the (unchanged) manager state, and the
list of transmissions that reached the transport — empty on the guard and
on packet-build failure, the single packet otherwise.  `writeOk` is
whether `serial_->write` wrote all bytes without throwing. -/
def sendCommand (s : ReaderState) (cmd : List Nat) (deviceAddr : Nat) (writeOk : Bool) :
    Bool × ReaderState × List (List Nat) :=
  if !s.connected || !s.serialPresent then (false, s, [])
  else
    match packAndSend cmd deviceAddr with
    | none => (false, s, [])
    | some pkt => (writeOk, s, [pkt])

/-- The manager states reachable through the source's mutex-guarded
transitions.  `openSerial` may run from **any** reachable state: besides
`start()` on a fresh manager and `reconnect()` after `closeSerial()`, a
`start()` retried after a failed `configureIMU`/`wakeupSensor`/
`enableAutoReport` reaches `openSerial` with a non-null open handle
(`running_` was never set, so `stop()` early-returns and nothing cleans
up) — which is exactly why `openSerial` carries its stale-handle
close-and-release block. -/
inductive ReachableR : ReaderState → Prop where
  | init : ReachableR initReader
  | openS (s : ReaderState) (dev ok : Bool) :
      ReachableR s → ReachableR (openSerial s dev ok)
  | closeS (s : ReaderState) : ReachableR s → ReachableR (closeSerial s)
  | readS (s : ReaderState) (t : Bool) : ReachableR s → ReachableR (readIter s t)
  | hotplugS (s : ReaderState) (d a : Bool) :
      ReachableR s → ReachableR (hotplugIter s d a)

/-! ## Auxiliary definitions for the claims -/

/-- The rejection branches of `processByte`: broadcast address mid-frame,
invalid length, checksum mismatch, bad terminator, and (for completeness)
the address-mismatch discard in the `End` state. -/
def rejects (s : ParserState) (b : Nat) : Prop :=
  (s.rxState = RxState.address ∧ b = 255) ∨
  (s.rxState = RxState.length ∧ (CMD_PACKET_MAX_DAT_SIZE_RX < b ∨ b = 0)) ∨
  (s.rxState = RxState.checksum ∧ ckAfterSub s b ≠ b) ∨
  (s.rxState = RxState.theEnd ∧ b ≠ CMD_PACKET_END) ∨
  (s.rxState = RxState.theEnd ∧ b = CMD_PACKET_END ∧
    ¬(s.targetAddr = 255 ∨ s.targetAddr = s.rxBuffer.getD 1 0))

/-- The buffer indices written by one `processByte` call (each
`rx_buffer_[rx_index_++] = byte` of the source, per state and branch). -/
def writeIdx (s : ParserState) (b : Nat) : List Nat :=
  match s.rxState with
  | RxState.waitBegin => if b = CMD_PACKET_BEGIN then [0] else []
  | RxState.address => [s.rxIndex]
  | RxState.length => [s.rxIndex]
  | RxState.data => [s.rxIndex]
  | RxState.checksum => if ckAfterSub s b = b then [s.rxIndex] else []
  | RxState.theEnd => if b = CMD_PACKET_END then [s.rxIndex] else []

/-- The decoder's internal invariant: the buffer keeps its capacity 78,
the accepted command length never exceeds `CMD_PACKET_MAX_DAT_SIZE_RX`,
the checksum accumulator is a `U8`, and the buffer index is pinned to the
state of the machine. -/
def Inv (s : ParserState) : Prop :=
  s.rxBuffer.length = 78 ∧ s.rxCmdLen ≤ 73 ∧ s.rxChecksum < 256 ∧
  (match s.rxState with
   | RxState.waitBegin => s.rxIndex ≤ 78
   | RxState.address => s.rxIndex = 1
   | RxState.length => s.rxIndex = 2
   | RxState.data => 3 ≤ s.rxIndex ∧ s.rxIndex ≤ s.rxCmdLen + 2 ∧ 1 ≤ s.rxCmdLen
   | RxState.checksum => s.rxIndex = s.rxCmdLen + 3 ∧ 1 ≤ s.rxCmdLen
   | RxState.theEnd => s.rxIndex = s.rxCmdLen + 4 ∧ 1 ≤ s.rxCmdLen)

/-- The decoder states reachable from the constructor through any
sequence of `processByte` and `reset` calls. -/
inductive ReachableP : ParserState → Prop where
  | init : ReachableP initParser
  | step (s : ParserState) (b : Nat) : ReachableP s → ReachableP (processByte s b).1
  | rst (s : ParserState) : ReachableP s → ReachableP (reset s)

/-- Write the values `vs` into `buf` at consecutive indices starting at
`i` (the effect of the successive `rx_buffer_[rx_index_++] = byte`
writes of a receive phase). -/
def setSeq (buf : List Nat) (i : Nat) : List Nat → List Nat
  | [] => buf
  | v :: vs => setSeq (buf.set i v) (i + 1) vs

/-- A `0x11` body, 14 bytes long, with subscribe tag `0x0050`
(temperature/pressure/height group and Euler group): the tag promises
`7 + 8 + 6 = 21` bytes, so the body is truncated. -/
def truncatedBody : List Nat := [0x11, 0x50, 0x00, 0, 0, 0, 0, 1, 0, 2, 0, 3, 0, 4]

/-! ## Claim C6: packet-builder contract -/

/-- C6: `packAndSend` fails — returns an error and never invokes the
injected transmit function — whenever the body is empty or exceeds 31
bytes; for every body with `1 ≤ len ≤ 31` it invokes the transmit
function exactly once with exactly `55 + len` bytes. -/
theorem packAndSend_contract (pDat : List Nat) (deviceAddr : Nat) :
    (pDat.length = 0 ∨ 31 < pDat.length → packAndSend pDat deviceAddr = none) ∧
    (1 ≤ pDat.length → pDat.length ≤ 31 →
      packAndSend pDat deviceAddr = some (txPacket pDat deviceAddr) ∧
      (txPacket pDat deviceAddr).length = 55 + pDat.length) := by
  refine ⟨fun h => ?_, fun h1 h2 => ⟨?_, ?_⟩⟩
  · unfold packAndSend
    rw [if_pos]
    simpa [CMD_PACKET_MAX_DAT_SIZE_TX] using h
  · have hcond : ¬(pDat.length = 0 ∨ CMD_PACKET_MAX_DAT_SIZE_TX < pDat.length) := by
      simp only [CMD_PACKET_MAX_DAT_SIZE_TX, not_or, not_lt]
      omega
    unfold packAndSend
    rw [if_neg hcond]
  · simp [txPacket]
    omega

/-- Witness for C6 at the concrete body `[0x12, 5]`. -/
theorem packAndSend_contract_witness :
    packAndSend [0x12, 5] 255 = some (txPacket [0x12, 5] 255) ∧
    (txPacket [0x12, 5] 255).length = 55 + 2 :=
  (packAndSend_contract [0x12, 5] 255).2 (by decide) (by decide)

/-! ## Claim C10: `sendCommand` guard -/

/-- C10: if the manager is not connected or holds no transport handle,
`sendCommand` returns `false` with no packet transmitted and the manager
state unchanged. -/
theorem sendCommand_disconnected (s : ReaderState) (cmd : List Nat)
    (deviceAddr : Nat) (writeOk : Bool)
    (h : s.connected = false ∨ s.serialPresent = false) :
    sendCommand s cmd deviceAddr writeOk = (false, s, []) := by
  unfold sendCommand
  rcases h with h | h <;> simp [h]

/-- Witness for C10: the freshly constructed (disconnected) manager. -/
theorem sendCommand_disconnected_witness :
    sendCommand initReader [0x03] 255 true = (false, initReader, []) :=
  sendCommand_disconnected initReader [0x03] 255 true (Or.inl rfl)

/-! ## Claim C9: the address filter is inert -/

/-- C9: the target device address is fixed at 255 by the constructor,
no operation (`processByte`, `reset`) ever changes it, and in the `End`
state a valid terminator always yields a decode — the address-mismatch
discard branch is unreachable. -/
theorem target_addr_inert :
    initParser.targetAddr = 255 ∧
    (∀ s b, (processByte s b).1.targetAddr = s.targetAddr) ∧
    (∀ s, (reset s).targetAddr = s.targetAddr) ∧
    (∀ s, s.targetAddr = 255 → s.rxState = RxState.theEnd →
      ((processByte s CMD_PACKET_END).2).isSome) := by
  refine ⟨rfl, fun s b => ?_, fun s => rfl, fun s h255 hend => ?_⟩
  · rcases s with ⟨st, buf, i, l, ck, t⟩
    cases st <;> unfold processByte <;> dsimp only <;>
      (repeat' split) <;> rfl
  · rcases s with ⟨st, buf, i, l, ck, t⟩
    dsimp only at h255 hend
    subst hend
    subst h255
    simp [processByte]

/-- Witness for C9 at a concrete `End`-state parser. -/
theorem target_addr_inert_witness :
    ((processByte ⟨RxState.theEnd, List.replicate 78 0, 77, 73, 0, 255⟩
      CMD_PACKET_END).2).isSome :=
  target_addr_inert.2.2.2 ⟨RxState.theEnd, List.replicate 78 0, 77, 73, 0, 255⟩ rfl rfl

/-! ## Claim C7: a rejecting byte is never reinterpreted as a start marker -/

/-- In the `AwaitStart` state a byte opens a new frame (state `Address`)
exactly when it is the start marker `0x49`. -/
theorem waitBegin_new_frame (s : ParserState) (h : s.rxState = RxState.waitBegin)
    (c : Nat) :
    ((processByte s c).1.rxState = RxState.address ↔ c = CMD_PACKET_BEGIN) := by
  rcases s with ⟨st, buf, i, l, ck, t⟩
  cases h
  by_cases hc : c = CMD_PACKET_BEGIN <;> simp [processByte, hc]

/-- C7: every rejection returns the machine to `AwaitStart`, emits no
frame, and the rejecting byte itself is consumed — a new frame begins only
at a strictly later `0x49` byte (in particular the rejecting byte is never
itself reinterpreted as a start marker, even when it equals `0x49`). -/
theorem reject_returns_to_waitBegin (s : ParserState) (b : Nat)
    (h : rejects s b) :
    (processByte s b).2 = none ∧
    (processByte s b).1.rxState = RxState.waitBegin ∧
    (∀ c, ((processByte (processByte s b).1 c).1.rxState = RxState.address ↔
      c = CMD_PACKET_BEGIN)) := by
  have hmain : (processByte s b).2 = none ∧
      (processByte s b).1.rxState = RxState.waitBegin := by
    rcases s with ⟨st, buf, i, l, ck, t⟩
    rcases h with ⟨hst, hb⟩ | ⟨hst, hb⟩ | ⟨hst, hb⟩ | ⟨hst, hb⟩ | ⟨hst, hb, haddr⟩ <;>
      dsimp only at hst hb <;> cases hst
    · simp [processByte, hb]
    · simp [processByte, hb]
    · simp [processByte, hb]
    · simp [processByte, hb]
    · subst hb
      have haddr' : ¬(t = 255 ∨ t = buf[1]?.getD 0) := by
        simpa [List.getD] using haddr
      simp [processByte, haddr']
  exact ⟨hmain.1, hmain.2, fun c => waitBegin_new_frame _ hmain.2 c⟩

/-- Witness for C7: the broadcast-address rejection, followed by the
observation that the rejecting byte did not open a frame. -/
theorem reject_returns_to_waitBegin_witness :
    (processByte ⟨RxState.address, List.replicate 78 0, 1, 0, 0, 255⟩ 255).2 = none ∧
    (processByte ⟨RxState.address, List.replicate 78 0, 1, 0, 0, 255⟩ 255).1.rxState =
      RxState.waitBegin ∧
    (∀ c, ((processByte (processByte ⟨RxState.address, List.replicate 78 0, 1, 0, 0, 255⟩
        255).1 c).1.rxState = RxState.address ↔ c = CMD_PACKET_BEGIN)) :=
  reject_returns_to_waitBegin _ 255 (Or.inl ⟨rfl, rfl⟩)

/-! ## Claim C5: transport handle vs. `connected_` -/

/-- C5 counterexample: after a successful open, a read that throws makes
`readThread` close the port and clear `connected_` but never release
`serial_`; the reachable state that results holds a non-null transport
handle while disconnected, refuting "the transport handle is non-null if
and only if the state is Connected". -/
theorem handle_nonnull_not_connected_cex :
    ReachableR (readIter (openSerial initReader true true) true) ∧
    (readIter (openSerial initReader true true) true).serialPresent = true ∧
    (readIter (openSerial initReader true true) true).connected = false :=
  ⟨ReachableR.readS _ true (ReachableR.openS _ true true ReachableR.init),
    by decide, by decide⟩

/-- Even a non-null **open** handle can coexist with Disconnected: after
a successful open, a `start()` retry whose `openSerial` hits the
device-absent `stat` early return clears `connected_` while leaving the
still-open handle in place (the stale-handle cleanup sits *after* that
early return).  So the disconnected-with-handle states are not limited
to closed handles, and no iff between `connected_` and any handle
predicate holds — only the forward implication of
`connected_implies_handle_open` survives. -/
theorem handle_open_not_connected_reachable :
    ReachableR (openSerial (openSerial initReader true true) false true) ∧
    (openSerial (openSerial initReader true true) false true).serialPresent = true ∧
    (openSerial (openSerial initReader true true) false true).serialOpen = true ∧
    (openSerial (openSerial initReader true true) false true).connected = false :=
  ⟨ReachableR.openS _ false true (ReachableR.openS _ true true ReachableR.init),
    by decide, by decide, by decide⟩

/-- C5 amended: at every reachable manager state, Connected implies the
transport handle is non-null and open.  The converse is false — a
non-null handle (closed by the read loop's exception path or the hotplug
loop, or even still open after `openSerial`'s device-absent early return
on a `start()` retry) can coexist with Disconnected. -/
theorem connected_implies_handle_open (s : ReaderState) (h : ReachableR s) :
    s.connected = true → s.serialPresent = true ∧ s.serialOpen = true := by
  induction h with
  | init => intro hc; cases hc
  | openS s dev ok _ ih =>
      cases dev <;> cases ok <;> simp [openSerial]
  | closeS s _ _ => intro hc; cases hc
  | readS s t _ ih =>
      unfold readIter
      cases hg : (s.connected && s.serialPresent && s.serialOpen) <;>
        cases t <;> simp_all
  | hotplugS s d a _ ih =>
      unfold hotplugIter
      cases hg : (s.connected && s.serialPresent && s.serialOpen) <;>
        cases d <;> cases a <;> simp_all

/-- Witness for C5 (amended) at a freshly opened (Connected) manager. -/
theorem connected_implies_handle_open_witness :
    (openSerial initReader true true).serialPresent = true ∧
    (openSerial initReader true true).serialOpen = true :=
  connected_implies_handle_open (openSerial initReader true true)
    (ReachableR.openS initReader true true ReachableR.init) (by decide)

/-! ## Claim C4: the receive buffer is never overrun -/

theorem inv_initParser : Inv initParser := by
  simp [Inv, initParser]

theorem inv_processByte (s : ParserState) (b : Nat) (h : Inv s) :
    Inv (processByte s b).1 := by
  obtain ⟨hlen, hcl, hck, hst⟩ := h
  rcases s with ⟨st, buf, i, l, ck, t⟩
  dsimp only at hlen hcl hck hst
  cases st <;> unfold processByte ckAfterSub <;> dsimp only <;>
    (repeat' split) <;>
    refine ⟨by simp [hlen], ?_, ?_, ?_⟩ <;>
    (try simp only [CMD_PACKET_MAX_DAT_SIZE_RX] at *) <;> omega

theorem inv_reset (s : ParserState) : Inv (reset s) := by
  refine ⟨by simp [reset], by simp [reset], by simp [reset], by simp [reset]⟩

theorem reachable_inv (s : ParserState) (h : ReachableP s) : Inv s := by
  induction h with
  | init => exact inv_initParser
  | step s b _ ih => exact inv_processByte s b ih
  | rst s _ _ => exact inv_reset s

/-- C4: at every reachable decoder state the buffer index is at most the
capacity 78 (= 5 header/trailer bytes + `CMD_PACKET_MAX_DAT_SIZE_RX`),
every buffer write of the next `processByte` call lands strictly below
index 78, a declared length byte of 0 or above 73 sends the machine back
to `AwaitStart`, and once in `AwaitStart` a non-start byte buffers
nothing. -/
theorem rx_buffer_safe (s : ParserState) (h : ReachableP s) :
    s.rxIndex ≤ 78 ∧
    (∀ b i, i ∈ writeIdx s b → i < 78) ∧
    (s.rxState = RxState.length → ∀ b, CMD_PACKET_MAX_DAT_SIZE_RX < b ∨ b = 0 →
      (processByte s b).1.rxState = RxState.waitBegin) ∧
    (s.rxState = RxState.waitBegin → ∀ b, b ≠ CMD_PACKET_BEGIN → writeIdx s b = []) := by
  have hinv := reachable_inv s h
  obtain ⟨hlen, hcl, hck, hst⟩ := hinv
  rcases s with ⟨st, buf, i, l, ck, t⟩
  dsimp only at hlen hcl hck hst
  refine ⟨?_, ?_, ?_, ?_⟩
  · cases st <;> dsimp only at hst ⊢ <;> omega
  · intro b j hj
    cases st <;> unfold writeIdx at hj <;> dsimp only at hj hst <;>
      (try split at hj) <;>
      simp only [List.mem_singleton, List.not_mem_nil] at hj <;>
      omega
  · intro hstEq b hb
    cases hstEq
    unfold processByte
    dsimp only
    rw [if_pos hb]
  · intro hstEq b hb
    cases hstEq
    unfold writeIdx
    dsimp only
    rw [if_neg hb]

/-- Witness for C4 at the initial decoder state. -/
theorem rx_buffer_safe_witness :
    initParser.rxIndex ≤ 78 ∧
    (∀ b i, i ∈ writeIdx initParser b → i < 78) ∧
    (initParser.rxState = RxState.length → ∀ b, CMD_PACKET_MAX_DAT_SIZE_RX < b ∨ b = 0 →
      (processByte initParser b).1.rxState = RxState.waitBegin) ∧
    (initParser.rxState = RxState.waitBegin → ∀ b, b ≠ CMD_PACKET_BEGIN →
      writeIdx initParser b = []) :=
  rx_buffer_safe initParser ReachableP.init

/-! ## Claim C8: unselected or absent field groups keep their zero defaults -/

/-- C8: in the sample emitted for a `0x11` body, every sensor field group
whose subscribe-tag bit is not set, or whose bound check
`L + width ≤ dLen` fails at its cursor, is left at its zero default —
only groups whose bit is set and whose bytes are present are assigned. -/
theorem sensor_group_defaults (buf : List Nat) (h7 : 7 ≤ buf.length) :
    parseSensorData buf = some (sensorSample buf) ∧
    (¬(tagOf buf &&& 0x0001 ≠ 0 ∧ 7 + 6 ≤ buf.length) →
      (sensorSample buf).accel_x = 0 ∧ (sensorSample buf).accel_y = 0 ∧
      (sensorSample buf).accel_z = 0) ∧
    (¬(tagOf buf &&& 0x0002 ≠ 0 ∧ curAcc (tagOf buf) buf.length + 6 ≤ buf.length) →
      (sensorSample buf).accel_with_gravity_x = 0 ∧
      (sensorSample buf).accel_with_gravity_y = 0 ∧
      (sensorSample buf).accel_with_gravity_z = 0) ∧
    (¬(tagOf buf &&& 0x0004 ≠ 0 ∧ curGrav (tagOf buf) buf.length + 6 ≤ buf.length) →
      (sensorSample buf).gyro_x = 0 ∧ (sensorSample buf).gyro_y = 0 ∧
      (sensorSample buf).gyro_z = 0) ∧
    (¬(tagOf buf &&& 0x0008 ≠ 0 ∧ curGyro (tagOf buf) buf.length + 6 ≤ buf.length) →
      (sensorSample buf).mag_x = 0 ∧ (sensorSample buf).mag_y = 0 ∧
      (sensorSample buf).mag_z = 0) ∧
    (¬(tagOf buf &&& 0x0010 ≠ 0 ∧ curMag (tagOf buf) buf.length + 8 ≤ buf.length) →
      (sensorSample buf).temperature = 0 ∧ (sensorSample buf).pressure = 0 ∧
      (sensorSample buf).height = 0) ∧
    (¬(tagOf buf &&& 0x0020 ≠ 0 ∧ curTph (tagOf buf) buf.length + 8 ≤ buf.length) →
      (sensorSample buf).quat_w = 0 ∧ (sensorSample buf).quat_x = 0 ∧
      (sensorSample buf).quat_y = 0 ∧ (sensorSample buf).quat_z = 0) ∧
    (¬(tagOf buf &&& 0x0040 ≠ 0 ∧ curQuat (tagOf buf) buf.length + 6 ≤ buf.length) →
      (sensorSample buf).euler_x = 0 ∧ (sensorSample buf).euler_y = 0 ∧
      (sensorSample buf).euler_z = 0) := by
  refine ⟨?_, ?_, ?_, ?_, ?_, ?_, ?_, ?_⟩
  · unfold parseSensorData
    rw [if_neg (by omega)]
  all_goals
    intro h
    unfold sensorSample
    dsimp only
    first
    | (refine ⟨?_, ?_, ?_, ?_⟩ <;> rw [if_neg h])
    | (refine ⟨?_, ?_, ?_⟩ <;> rw [if_neg h])

/-- Witness for C8 at a minimal body with an all-zero tag. -/
theorem sensor_group_defaults_witness :
    (sensorSample [0x11, 0, 0, 0, 0, 0, 0]).accel_x = 0 ∧
    (sensorSample [0x11, 0, 0, 0, 0, 0, 0]).accel_y = 0 ∧
    (sensorSample [0x11, 0, 0, 0, 0, 0, 0]).accel_z = 0 :=
  (sensor_group_defaults [0x11, 0, 0, 0, 0, 0, 0] (by decide)).2.1 (by decide)

/-! ## Claim C1: truncated `0x11` bodies -/

/-- C1 (amended): a field group whose bound check fails is skipped — left
at its defaults, the cursor not advanced — but decoding does **not** stop:
every later group is still decoded whenever its own guard
`(tag bit set) ∧ (cursor + width ≤ dLen)` holds, and the sample is emitted
(for any body of length ≥ 7) with exactly the fields whose guards held. -/
theorem sensor_truncation_behaviour (buf : List Nat) (h7 : 7 ≤ buf.length) :
    parseSensorData buf = some (sensorSample buf) ∧
    ((tagOf buf &&& 0x0001 ≠ 0 ∧ 7 + 6 ≤ buf.length) →
      (sensorSample buf).accel_x = (rd16 buf 7 : ℚ) * SCALE_ACCEL ∧
      (sensorSample buf).accel_y = (rd16 buf 9 : ℚ) * SCALE_ACCEL ∧
      (sensorSample buf).accel_z = (rd16 buf 11 : ℚ) * SCALE_ACCEL) ∧
    ((tagOf buf &&& 0x0002 ≠ 0 ∧ curAcc (tagOf buf) buf.length + 6 ≤ buf.length) →
      (sensorSample buf).accel_with_gravity_x =
        (rd16 buf (curAcc (tagOf buf) buf.length) : ℚ) * SCALE_ACCEL ∧
      (sensorSample buf).accel_with_gravity_y =
        (rd16 buf (curAcc (tagOf buf) buf.length + 2) : ℚ) * SCALE_ACCEL ∧
      (sensorSample buf).accel_with_gravity_z =
        (rd16 buf (curAcc (tagOf buf) buf.length + 4) : ℚ) * SCALE_ACCEL) ∧
    ((tagOf buf &&& 0x0004 ≠ 0 ∧ curGrav (tagOf buf) buf.length + 6 ≤ buf.length) →
      (sensorSample buf).gyro_x =
        (rd16 buf (curGrav (tagOf buf) buf.length) : ℚ) * SCALE_ANGLE_SPEED ∧
      (sensorSample buf).gyro_y =
        (rd16 buf (curGrav (tagOf buf) buf.length + 2) : ℚ) * SCALE_ANGLE_SPEED ∧
      (sensorSample buf).gyro_z =
        (rd16 buf (curGrav (tagOf buf) buf.length + 4) : ℚ) * SCALE_ANGLE_SPEED) ∧
    ((tagOf buf &&& 0x0008 ≠ 0 ∧ curGyro (tagOf buf) buf.length + 6 ≤ buf.length) →
      (sensorSample buf).mag_x =
        (rd16 buf (curGyro (tagOf buf) buf.length) : ℚ) * SCALE_MAG ∧
      (sensorSample buf).mag_y =
        (rd16 buf (curGyro (tagOf buf) buf.length + 2) : ℚ) * SCALE_MAG ∧
      (sensorSample buf).mag_z =
        (rd16 buf (curGyro (tagOf buf) buf.length + 4) : ℚ) * SCALE_MAG) ∧
    ((tagOf buf &&& 0x0010 ≠ 0 ∧ curMag (tagOf buf) buf.length + 8 ≤ buf.length) →
      (sensorSample buf).temperature =
        (rd16 buf (curMag (tagOf buf) buf.length) : ℚ) * SCALE_TEMPERATURE ∧
      (sensorSample buf).pressure =
        (rd24 buf (curMag (tagOf buf) buf.length + 2) : ℚ) * SCALE_AIR_PRESSURE ∧
      (sensorSample buf).height =
        (rd24 buf (curMag (tagOf buf) buf.length + 5) : ℚ) * SCALE_HEIGHT) ∧
    ((tagOf buf &&& 0x0020 ≠ 0 ∧ curTph (tagOf buf) buf.length + 8 ≤ buf.length) →
      (sensorSample buf).quat_w =
        (rd16 buf (curTph (tagOf buf) buf.length) : ℚ) * SCALE_QUAT ∧
      (sensorSample buf).quat_x =
        (rd16 buf (curTph (tagOf buf) buf.length + 2) : ℚ) * SCALE_QUAT ∧
      (sensorSample buf).quat_y =
        (rd16 buf (curTph (tagOf buf) buf.length + 4) : ℚ) * SCALE_QUAT ∧
      (sensorSample buf).quat_z =
        (rd16 buf (curTph (tagOf buf) buf.length + 6) : ℚ) * SCALE_QUAT) ∧
    ((tagOf buf &&& 0x0040 ≠ 0 ∧ curQuat (tagOf buf) buf.length + 6 ≤ buf.length) →
      (sensorSample buf).euler_x =
        (rd16 buf (curQuat (tagOf buf) buf.length) : ℚ) * SCALE_ANGLE ∧
      (sensorSample buf).euler_y =
        (rd16 buf (curQuat (tagOf buf) buf.length + 2) : ℚ) * SCALE_ANGLE ∧
      (sensorSample buf).euler_z =
        (rd16 buf (curQuat (tagOf buf) buf.length + 4) : ℚ) * SCALE_ANGLE) := by
  refine ⟨?_, ?_, ?_, ?_, ?_, ?_, ?_, ?_⟩
  · unfold parseSensorData
    rw [if_neg (by omega)]
  all_goals
    intro h
    unfold sensorSample
    dsimp only
    first
    | (refine ⟨?_, ?_, ?_, ?_⟩ <;> rw [if_pos h])
    | (refine ⟨?_, ?_, ?_⟩ <;> rw [if_pos h])

/-- Witness for C1 (amended): tag `0x01` with a full acceleration group. -/
theorem sensor_truncation_behaviour_witness :
    (sensorSample [0x11, 1, 0, 0, 0, 0, 0, 100, 0, 200, 0, 44, 1]).accel_x =
      (rd16 [0x11, 1, 0, 0, 0, 0, 0, 100, 0, 200, 0, 44, 1] 7 : ℚ) * SCALE_ACCEL ∧
    (sensorSample [0x11, 1, 0, 0, 0, 0, 0, 100, 0, 200, 0, 44, 1]).accel_y =
      (rd16 [0x11, 1, 0, 0, 0, 0, 0, 100, 0, 200, 0, 44, 1] 9 : ℚ) * SCALE_ACCEL ∧
    (sensorSample [0x11, 1, 0, 0, 0, 0, 0, 100, 0, 200, 0, 44, 1]).accel_z =
      (rd16 [0x11, 1, 0, 0, 0, 0, 0, 100, 0, 200, 0, 44, 1] 11 : ℚ) * SCALE_ACCEL :=
  (sensor_truncation_behaviour [0x11, 1, 0, 0, 0, 0, 0, 100, 0, 200, 0, 44, 1]
    (by decide)).2.1 (by decide)

/-- C1 counterexample: on `truncatedBody` the first failing group is the
`0x0010` temperature group (its bound check `7 + 8 ≤ 14` fails), yet the
*later* Euler group is still decoded — `euler_x` ends up `≠ 0` — so
decoding does not stop at the first failed bound check and a subsequent
group is not at its default, refuting the claim as stated. -/
theorem sensor_truncation_cex :
    7 ≤ truncatedBody.length ∧
    tagOf truncatedBody &&& 0x0010 ≠ 0 ∧
    ¬(curMag (tagOf truncatedBody) truncatedBody.length + 8 ≤ truncatedBody.length) ∧
    tagOf truncatedBody &&& 0x0040 ≠ 0 ∧
    parseSensorData truncatedBody = some (sensorSample truncatedBody) ∧
    (sensorSample truncatedBody).euler_x = SCALE_ANGLE ∧
    SCALE_ANGLE ≠ 0 := by
  refine ⟨by decide, by decide, by decide, by decide, ?_, ?_, by norm_num [SCALE_ANGLE]⟩
  · unfold parseSensorData
    rw [if_neg (by decide)]
  · unfold sensorSample
    dsimp only
    rw [if_pos (by decide)]
    have h1 : rd16 truncatedBody (curQuat (tagOf truncatedBody) truncatedBody.length) = 1 := by
      decide
    rw [h1]
    norm_num

/-! ## Infrastructure for the round-trip and bit-flip claims -/

theorem getD_set_self (l : List Nat) (i a : Nat) (h : i < l.length) :
    (l.set i a).getD i 0 = a := by
  simp [List.getD, List.getElem?_set_self, h]

theorem getD_set_ne (l : List Nat) (i j a : Nat) (h : i ≠ j) :
    (l.set i a).getD j 0 = l.getD j 0 := by
  simp [List.getD, List.getElem?_set_ne h]

theorem setSeq_length (vs : List Nat) (buf : List Nat) (i : Nat) :
    (setSeq buf i vs).length = buf.length := by
  induction vs generalizing buf i with
  | nil => rfl
  | cons v vs ih => simp [setSeq, ih]

theorem getD_setSeq_lt (vs : List Nat) (buf : List Nat) (i j : Nat) (h : j < i) :
    (setSeq buf i vs).getD j 0 = buf.getD j 0 := by
  induction vs generalizing buf i with
  | nil => rfl
  | cons v vs ih =>
      show (setSeq (buf.set i v) (i + 1) vs).getD j 0 = buf.getD j 0
      rw [ih (buf.set i v) (i + 1) (by omega), getD_set_ne _ _ _ _ (by omega)]

theorem getD_setSeq_get (vs : List Nat) (buf : List Nat) (i k : Nat)
    (hk : k < vs.length) (hbuf : i + vs.length ≤ buf.length) :
    (setSeq buf i vs).getD (i + k) 0 = vs.getD k 0 := by
  induction vs generalizing buf i k with
  | nil => simp at hk
  | cons v vs ih =>
      cases k with
      | zero =>
          show (setSeq (buf.set i v) (i + 1) vs).getD (i + 0) 0 = v
          rw [getD_setSeq_lt _ _ _ _ (by omega)]
          have hset := getD_set_self buf i v (by simp at hbuf; omega)
          simpa using hset
      | succ q =>
          show (setSeq (buf.set i v) (i + 1) vs).getD (i + (q + 1)) 0 = (v :: vs).getD (q + 1) 0
          rw [show i + (q + 1) = (i + 1) + q by omega,
            ih (buf.set i v) (i + 1) q (by simpa using hk) (by simp at hbuf ⊢; omega)]
          rfl

theorem map_range_getD (l : List Nat) :
    (List.range l.length).map (fun k => l.getD k 0) = l := by
  apply List.ext_getElem
  · simp
  · intro i h1 h2
    simp [List.getD, List.getElem?_eq_getElem h2]

theorem sum_set_add (l : List Nat) (p a : Nat) (hp : p < l.length) :
    (l.set p a).sum + l.getD p 0 = l.sum + a := by
  induction l generalizing p with
  | nil => simp at hp
  | cons x xs ih =>
      cases p with
      | zero => simp [List.getD]; omega
      | succ q =>
          have := ih q (by simpa using hp)
          simp [List.getD] at this ⊢
          omega

theorem runBytes_append (s : ParserState) (xs ys : List Nat) :
    runBytes s (xs ++ ys) =
      ((runBytes (runBytes s xs).1 ys).1,
       (runBytes s xs).2 ++ (runBytes (runBytes s xs).1 ys).2) := by
  induction xs generalizing s with
  | nil => simp [runBytes]
  | cons x xs ih =>
      show runBytes s (x :: (xs ++ ys)) = _
      simp only [runBytes]
      rw [ih (processByte s x).1]
      simp [runBytes]

/-- Running the `Data` state over the declared number of body bytes:
each byte is appended at the running index and the machine moves to
`Checksum` exactly when `rx_cmd_len_ + 3` bytes are buffered, the running
checksum accumulating every byte mod 256. -/
theorem runBytes_data (body : List Nat) (buf : List Nat) (i l ck t : Nat)
    (hne : body ≠ []) (hilen : i + body.length = l + 3) (hl : l ≤ 73)
    (hi : 3 ≤ i) :
    runBytes ⟨RxState.data, buf, i, l, ck, t⟩ body =
      (⟨RxState.checksum, setSeq buf i body, l + 3, l, (ck + body.sum) % 256, t⟩, []) := by
  induction body generalizing buf i ck with
  | nil => exact absurd rfl hne
  | cons b bs ih =>
      simp only [runBytes, processByte]
      by_cases hbs : bs = []
      · subst hbs
        simp only [List.length_cons, List.length_nil] at hilen
        rw [if_pos (by omega)]
        simp only [runBytes]
        show _ = (⟨RxState.checksum, setSeq buf i [b], l + 3, l, (ck + [b].sum) % 256, t⟩, ([] : List DecodedFrame))
        have h1 : (i + 1) % 256 = l + 3 := by omega
        simp [setSeq, h1]
      · have hlb : bs.length ≥ 1 := by
          cases bs with
          | nil => exact absurd rfl hbs
          | cons c cs => simp
        simp only [List.length_cons] at hilen
        rw [if_neg (by omega)]
        rw [show (i + 1) % 256 = i + 1 by omega]
        rw [ih (buf.set i b) (i + 1) ((ck + b) % 256) hbs (by omega) (by omega)]
        show _ = (⟨RxState.checksum, setSeq (buf.set i b) (i + 1) bs, l + 3, l, (ck + (b :: bs).sum) % 256, t⟩, ([] : List DecodedFrame))
        rw [List.sum_cons, Nat.mod_add_mod, Nat.add_assoc]
        rfl

theorem ckAfterSub_eq (s : ParserState) (b : Nat) (hC : s.rxChecksum < 256)
    (hb : b < 256) : ckAfterSub s b = s.rxChecksum := by
  unfold ckAfterSub
  omega

/-- The `AwaitStart → Address → Length` prefix of a frame: start marker,
a non-broadcast address and a valid length leave the machine in the
`Data` state with the three header bytes buffered and the checksum
accumulator holding `(addr + len) mod 256`. -/
theorem runBytes_header (buf : List Nat) (i0 l0 ck0 t addr lenB : Nat)
    (haddr : addr < 255) (hlen1 : 1 ≤ lenB) (hlen73 : lenB ≤ 73) :
    runBytes ⟨RxState.waitBegin, buf, i0, l0, ck0, t⟩ [CMD_PACKET_BEGIN, addr, lenB] =
      (⟨RxState.data, ((buf.set 0 CMD_PACKET_BEGIN).set 1 addr).set 2 lenB, 3, lenB,
        (addr + lenB) % 256, t⟩, []) := by
  have s1 : processByte ⟨RxState.waitBegin, buf, i0, l0, ck0, t⟩ CMD_PACKET_BEGIN =
      (⟨RxState.address, buf.set 0 CMD_PACKET_BEGIN, 1, l0, 0, t⟩, none) := by
    simp [processByte]
  have s2 : processByte ⟨RxState.address, buf.set 0 CMD_PACKET_BEGIN, 1, l0, 0, t⟩ addr =
      (⟨RxState.length, (buf.set 0 CMD_PACKET_BEGIN).set 1 addr, 2, l0, addr % 256, t⟩,
        none) := by
    simp only [processByte]
    rw [if_neg (by omega : ¬ addr = 255)]
    norm_num
  have s3 : processByte ⟨RxState.length, (buf.set 0 CMD_PACKET_BEGIN).set 1 addr, 2, l0,
      addr % 256, t⟩ lenB =
      (⟨RxState.data, ((buf.set 0 CMD_PACKET_BEGIN).set 1 addr).set 2 lenB, 3, lenB,
        (addr + lenB) % 256, t⟩, none) := by
    simp only [processByte]
    rw [if_neg (by simp only [CMD_PACKET_MAX_DAT_SIZE_RX]; omega)]
    rw [show (2 + 1) % 256 = 3 by norm_num, Nat.mod_add_mod]
  simp only [runBytes, s1, s2, s3]
  rfl

/-- The whole receive prefix `begin | addr | len | body`: from any
`AwaitStart` state the machine reaches `Checksum` with the frame buffered
from index 0 and the checksum accumulator `(addr + len + sum body) mod 256`. -/
theorem runBytes_to_checksum (buf : List Nat) (i0 l0 ck0 t addr lenB : Nat)
    (body : List Nat) (haddr : addr < 255) (hlen1 : 1 ≤ lenB) (hlen73 : lenB ≤ 73)
    (hbody : body.length = lenB) :
    runBytes ⟨RxState.waitBegin, buf, i0, l0, ck0, t⟩
        ([CMD_PACKET_BEGIN, addr, lenB] ++ body) =
      (⟨RxState.checksum,
        setSeq (((buf.set 0 CMD_PACKET_BEGIN).set 1 addr).set 2 lenB) 3 body,
        lenB + 3, lenB, (addr + lenB + body.sum) % 256, t⟩, []) := by
  rw [runBytes_append, runBytes_header buf i0 l0 ck0 t addr lenB haddr hlen1 hlen73]
  have hne : body ≠ [] := by
    intro hcon
    rw [hcon] at hbody
    simp at hbody
    omega
  rw [runBytes_data body _ 3 lenB ((addr + lenB) % 256) t hne (by omega) hlen73 (by omega)]
  rw [Nat.mod_add_mod]
  rfl

/-- A complete well-formed inbound frame
`0x49 | addr | len | body | checksum | 0x4D` fed to a wildcard-target
decoder in any `AwaitStart` state with a capacity-78 buffer is accepted
and decoded to `(addr, body)`. -/
theorem frame_accepted (addr : Nat) (body : List Nat) (buf : List Nat)
    (i0 l0 ck0 : Nat) (hbuf : buf.length = 78) (haddr : addr < 255)
    (hlen1 : 1 ≤ body.length) (hlen73 : body.length ≤ 73) :
    (runBytes ⟨RxState.waitBegin, buf, i0, l0, ck0, 255⟩
        ([CMD_PACKET_BEGIN, addr, body.length] ++
          (body ++ [(addr + body.length + body.sum) % 256, CMD_PACKET_END]))).2 =
      [⟨addr, body⟩] := by
  rw [← List.append_assoc, runBytes_append]
  rw [runBytes_to_checksum buf i0 l0 ck0 255 addr body.length body haddr hlen1 hlen73 rfl]
  set B := setSeq (((buf.set 0 CMD_PACKET_BEGIN).set 1 addr).set 2 body.length) 3 body
    with hB
  set C := (addr + body.length + body.sum) % 256 with hCdef
  have hC : C < 256 := Nat.mod_lt _ (by norm_num)
  have hBlen : B.length = 78 := by
    rw [hB, setSeq_length]
    simp [hbuf]
  have hstep4 : processByte ⟨RxState.checksum, B, body.length + 3, body.length, C, 255⟩ C =
      (⟨RxState.theEnd, B.set (body.length + 3) C, body.length + 4, body.length, C, 255⟩,
        none) := by
    simp only [processByte]
    rw [ckAfterSub_eq _ _ (by exact hC) (by exact hC)]
    rw [if_pos rfl]
    rw [show (body.length + 3 + 1) % 256 = body.length + 4 by omega]
  have hstep5 : processByte ⟨RxState.theEnd, B.set (body.length + 3) C,
      body.length + 4, body.length, C, 255⟩ CMD_PACKET_END =
      (⟨RxState.waitBegin, (B.set (body.length + 3) C).set (body.length + 4) CMD_PACKET_END,
         body.length + 5, body.length, (C + CMD_PACKET_END) % 256, 255⟩,
       some ⟨(B.set (body.length + 3) C).getD 1 0,
         (List.range body.length).map (fun i =>
           ((B.set (body.length + 3) C).set (body.length + 4) CMD_PACKET_END).getD
             (3 + i) 0)⟩) := by
    simp only [processByte]
    rw [if_pos trivial, if_pos (Or.inl trivial)]
    rw [show (body.length + 4 + 1) % 256 = body.length + 5 by omega]
    rw [show body.length + 5 - 5 = body.length by omega]
  have haddrRead : (B.set (body.length + 3) C).getD 1 0 = addr := by
    rw [getD_set_ne _ _ _ _ (by omega), hB, getD_setSeq_lt _ _ _ _ (by omega),
      getD_set_ne _ _ _ _ (by omega),
      getD_set_self _ _ _ (by simp [hbuf])]
  have hpayload : (List.range body.length).map (fun i =>
      ((B.set (body.length + 3) C).set (body.length + 4) CMD_PACKET_END).getD (3 + i) 0) =
      body := by
    have hpt : ∀ i ∈ List.range body.length,
        ((B.set (body.length + 3) C).set (body.length + 4) CMD_PACKET_END).getD (3 + i) 0 =
          body.getD i 0 := by
      intro i hi
      have hi' : i < body.length := List.mem_range.mp hi
      rw [getD_set_ne _ _ _ _ (by omega), getD_set_ne _ _ _ _ (by omega), hB,
        getD_setSeq_get body _ 3 i hi' (by simp [hbuf]; omega)]
    rw [List.map_congr_left hpt, map_range_getD]
  simp only [runBytes, hstep4, hstep5]
  have hBaddr : B.getD 1 0 = addr := by
    rw [hB, getD_setSeq_lt _ _ _ _ (by omega), getD_set_ne _ _ _ _ (by omega),
      getD_set_self _ _ _ (by simp [hbuf])]
  simp only [List.getD, List.get?_eq_getElem?] at hpayload hBaddr
  simp [haddrRead, hpayload, hBaddr]

/-! ## Claim C2: build followed by parse is a left inverse -/

/-- C2 counterexample: for the broadcast device address 255 the built
packet is rejected at the `Address` state (broadcast reset), so the
round-trip yields no frame at all even though the decoder's wildcard
target accepts every address. -/
theorem build_parse_roundtrip_cex :
    packAndSend [0x11] 255 = some (txPacket [0x11] 255) ∧
    (runBytes initParser (txPacket [0x11] 255)).2 = [] := ⟨by decide, by decide⟩

/-- C2 (amended): for every body with `1 ≤ len ≤ 31` and every
**non-broadcast** device address (`addr ≠ 255`), feeding the bytes built
by `packAndSend` one at a time into the freshly constructed decoder
yields exactly one decoded frame, whose stored address is `addr` and
whose payload is exactly the body (the command consumed by `unpackData`
is its first byte `body[0]`). -/
theorem build_parse_roundtrip (body : List Nat) (addr : Nat)
    (hlen1 : 1 ≤ body.length) (hlen31 : body.length ≤ 31) (haddr : addr < 255) :
    packAndSend body addr = some (txPacket body addr) ∧
    (runBytes initParser (txPacket body addr)).2 = [⟨addr, body⟩] := by
  constructor
  · unfold packAndSend
    rw [if_neg (by simp only [CMD_PACKET_MAX_DAT_SIZE_TX, not_or]; omega)]
  · unfold txPacket
    simp only [List.append_assoc]
    rw [runBytes_append]
    have hP1 : runBytes initParser (List.replicate 46 0) = (initParser, []) := by decide
    rw [hP1]
    rw [runBytes_append]
    have hP2 : runBytes initParser [0x00, 0xFF, 0x00, 0xFF] =
        (⟨RxState.waitBegin, List.replicate 78 0, 0, 0, 254, 255⟩, []) := by decide
    rw [hP2]
    have hacc := frame_accepted addr body (List.replicate 78 0) 0 0 254 (by simp)
      haddr hlen1 (by omega)
    simpa using hacc

/-- Witness for C2 (amended) at body `[0x11, 7]`, address 80. -/
theorem build_parse_roundtrip_witness :
    packAndSend [0x11, 7] 80 = some (txPacket [0x11, 7] 80) ∧
    (runBytes initParser (txPacket [0x11, 7] 80)).2 = [⟨80, [0x11, 7]⟩] :=
  build_parse_roundtrip [0x11, 7] 80 (by decide) (by decide) (by decide)

/-! ## Claim C3: any single bit flip in body or checksum is rejected -/

/-- After the body, a checksum byte that does not match the accumulated
sum resets the machine, and the following terminator byte (not a start
marker) opens nothing: no frame is decoded. -/
theorem runBytes_tail_mismatch (B : List Nat) (i l C t b : Nat)
    (hC : C < 256) (hb : b < 256) (hne : ¬ C = b) :
    (runBytes ⟨RxState.checksum, B, i, l, C, t⟩ [b, CMD_PACKET_END]).2 = [] := by
  have s1 : processByte ⟨RxState.checksum, B, i, l, C, t⟩ b =
      (⟨RxState.waitBegin, B, i, l, C, t⟩, none) := by
    simp only [processByte]
    rw [ckAfterSub_eq _ _ hC hb]
    rw [if_neg hne]
  have s2 : processByte ⟨RxState.waitBegin, B, i, l, C, t⟩ CMD_PACKET_END =
      (⟨RxState.waitBegin, B, i, l, (C + CMD_PACKET_END) % 256, t⟩, none) := by
    simp only [processByte]
    rw [if_neg (by decide)]
  simp [runBytes, s1, s2]

theorem xor_flip_ne (b k : Nat) : b ^^^ 2 ^ k ≠ b := by
  intro h
  have h2 : b ^^^ (b ^^^ 2 ^ k) = b ^^^ b := congrArg (fun x => b ^^^ x) h
  rw [Nat.xor_cancel_left, Nat.xor_self] at h2
  have hpos : (0 : Nat) < 2 ^ k := Nat.pow_pos (by norm_num)
  omega

theorem xor_flip_lt (b k : Nat) (hb : b < 256) (hk : k < 8) : b ^^^ 2 ^ k < 256 := by
  have h1 : b < 2 ^ 8 := by simpa using hb
  have h2 : (2 : Nat) ^ k < 2 ^ 8 := Nat.pow_lt_pow_right (by norm_num) (by omega)
  have := Nat.xor_lt_two_pow h1 h2
  norm_num at this
  exact this

/-- Flipping bit `k` of the body byte at position `p` changes the
additive checksum mod 256. -/
theorem flipped_sum_ne (addr lenB : Nat) (body : List Nat) (p k : Nat)
    (hp : p < body.length) (hk : k < 8) (hbytes : ∀ x ∈ body, x < 256) :
    (addr + lenB + (body.set p (body.getD p 0 ^^^ 2 ^ k)).sum) % 256 ≠
      (addr + lenB + body.sum) % 256 := by
  have hbpel : body.getD p 0 = body[p] := by
    simp [List.getD, List.getElem?_eq_getElem hp]
  have hbp : body.getD p 0 < 256 := by
    rw [hbpel]
    exact hbytes _ (List.getElem_mem hp)
  have hne := xor_flip_ne (body.getD p 0) k
  have hlt := xor_flip_lt (body.getD p 0) k hbp hk
  have hsum := sum_set_add body p (body.getD p 0 ^^^ 2 ^ k) hp
  omega

/-- C3: a well-formed frame (non-broadcast address, valid length,
matching additive checksum, correct terminator) is accepted and decoded;
but flipping any single bit — `2^k`, `k < 8` — of any body byte, or of the
checksum byte, makes the checksum comparison fail, the machine resets to
`AwaitStart`, and no frame is decoded from those bytes. -/
theorem single_bitflip_rejected (addr : Nat) (body : List Nat) (k : Nat)
    (haddr : addr < 255) (hlen1 : 1 ≤ body.length) (hlen73 : body.length ≤ 73)
    (hbytes : ∀ x ∈ body, x < 256) (hk : k < 8) :
    (runBytes initParser ([CMD_PACKET_BEGIN, addr, body.length] ++
        (body ++ [(addr + body.length + body.sum) % 256, CMD_PACKET_END]))).2 =
      [⟨addr, body⟩] ∧
    (∀ p, p < body.length →
      (runBytes initParser ([CMD_PACKET_BEGIN, addr, body.length] ++
          (body.set p (body.getD p 0 ^^^ 2 ^ k) ++
           [(addr + body.length + body.sum) % 256, CMD_PACKET_END]))).2 = []) ∧
    (runBytes initParser ([CMD_PACKET_BEGIN, addr, body.length] ++
        (body ++ [((addr + body.length + body.sum) % 256) ^^^ 2 ^ k,
          CMD_PACKET_END]))).2 = [] := by
  have hinit : initParser =
      (⟨RxState.waitBegin, List.replicate 78 0, 0, 0, 0, 255⟩ : ParserState) := rfl
  have hC : (addr + body.length + body.sum) % 256 < 256 := Nat.mod_lt _ (by norm_num)
  refine ⟨?_, ?_, ?_⟩
  · rw [hinit]
    exact frame_accepted addr body (List.replicate 78 0) 0 0 0 (by simp)
      haddr hlen1 hlen73
  · intro p hp
    have hlen' : (body.set p (body.getD p 0 ^^^ 2 ^ k)).length = body.length := by simp
    rw [hinit, ← List.append_assoc, runBytes_append]
    rw [show ([CMD_PACKET_BEGIN, addr, body.length] : List Nat) =
      [CMD_PACKET_BEGIN, addr, (body.set p (body.getD p 0 ^^^ 2 ^ k)).length] by rw [hlen']]
    rw [runBytes_to_checksum (List.replicate 78 0) 0 0 0 255 addr
      (body.set p (body.getD p 0 ^^^ 2 ^ k)).length (body.set p (body.getD p 0 ^^^ 2 ^ k))
      haddr (by omega) (by omega) rfl]
    have hCflip : (addr + (body.set p (body.getD p 0 ^^^ 2 ^ k)).length +
        (body.set p (body.getD p 0 ^^^ 2 ^ k)).sum) % 256 < 256 :=
      Nat.mod_lt _ (by norm_num)
    have hne : ¬ ((addr + (body.set p (body.getD p 0 ^^^ 2 ^ k)).length +
        (body.set p (body.getD p 0 ^^^ 2 ^ k)).sum) % 256 =
        (addr + body.length + body.sum) % 256) := by
      rw [hlen']
      exact flipped_sum_ne addr body.length body p k hp hk hbytes
    have hmm := runBytes_tail_mismatch
      (setSeq ((((List.replicate 78 0).set 0 CMD_PACKET_BEGIN).set 1 addr).set 2
        (body.set p (body.getD p 0 ^^^ 2 ^ k)).length) 3
        (body.set p (body.getD p 0 ^^^ 2 ^ k)))
      ((body.set p (body.getD p 0 ^^^ 2 ^ k)).length + 3)
      (body.set p (body.getD p 0 ^^^ 2 ^ k)).length
      ((addr + (body.set p (body.getD p 0 ^^^ 2 ^ k)).length +
        (body.set p (body.getD p 0 ^^^ 2 ^ k)).sum) % 256)
      255 ((addr + body.length + body.sum) % 256) hCflip hC hne
    simpa using hmm
  · rw [hinit, ← List.append_assoc, runBytes_append]
    rw [runBytes_to_checksum (List.replicate 78 0) 0 0 0 255 addr
      body.length body haddr hlen1 hlen73 rfl]
    have hflt : ((addr + body.length + body.sum) % 256) ^^^ 2 ^ k < 256 :=
      xor_flip_lt _ k hC hk
    have hne : ¬ ((addr + body.length + body.sum) % 256 =
        ((addr + body.length + body.sum) % 256) ^^^ 2 ^ k) := by
      intro h
      exact xor_flip_ne ((addr + body.length + body.sum) % 256) k h.symm
    have hmm := runBytes_tail_mismatch
      (setSeq ((((List.replicate 78 0).set 0 CMD_PACKET_BEGIN).set 1 addr).set 2
        body.length) 3 body)
      (body.length + 3) body.length ((addr + body.length + body.sum) % 256) 255
      (((addr + body.length + body.sum) % 256) ^^^ 2 ^ k) hC hflt hne
    simpa using hmm

/-- Witness for C3 at the one-byte body `[0x11]`, address 1, bit 0. -/
theorem single_bitflip_rejected_witness :
    (runBytes initParser ([CMD_PACKET_BEGIN, 1, ([0x11] : List Nat).length] ++
        ([0x11] ++ [(1 + ([0x11] : List Nat).length + ([0x11] : List Nat).sum) % 256,
          CMD_PACKET_END]))).2 = [⟨1, [0x11]⟩] ∧
    (∀ p, p < ([0x11] : List Nat).length →
      (runBytes initParser ([CMD_PACKET_BEGIN, 1, ([0x11] : List Nat).length] ++
          (([0x11] : List Nat).set p (([0x11] : List Nat).getD p 0 ^^^ 2 ^ 0) ++
           [(1 + ([0x11] : List Nat).length + ([0x11] : List Nat).sum) % 256,
            CMD_PACKET_END]))).2 = []) ∧
    (runBytes initParser ([CMD_PACKET_BEGIN, 1, ([0x11] : List Nat).length] ++
        ([0x11] ++ [((1 + ([0x11] : List Nat).length + ([0x11] : List Nat).sum) % 256) ^^^
          2 ^ 0, CMD_PACKET_END]))).2 = [] :=
  single_bitflip_rejected 1 [0x11] 0 (by decide) (by decide) (by decide)
    (by intro x hx; simp at hx; omega) (by decide)

end IMU
